import Mathlib

/-!
Shallow embedding of the tapmo-server (KontactShare) Express API, `src/index.ts`.

The server is stateless: every handler runs one or two Supabase (PostgREST)
queries against the `profiles` / `admins` tables and reshapes the result.  We
embed the database as an explicit list of rows passed in and out of each
handler, PostgREST's `.single()` as a function that succeeds on exactly one
row, and the external collaborators (bcryptjs, jsonwebtoken, multer) by their
library contracts.  Timestamps are naturals (ISO-8601 strings compare the same
way as their instants, so `updated_at` advancing is numeric increase).
-/

namespace TapmoServer

/-- HTTP error response: the status code and the `error` message of the JSON
body, as produced by `res.status(s).json({error: msg})`. -/
structure Err where
  status : Nat
  error : String
deriving DecidableEq

/-- Outcome of a request handler: a JSON success payload or an error response. -/
inductive HttpResult (α : Type) where
  | ok (value : α)
  | err (e : Err)
deriving DecidableEq

/-- PostgREST `.single()`: yields the row exactly when the query returned one
row; zero rows or several rows produce an error (`PGRST116`). -/
def single {α : Type} (rows : List α) : Option α :=
  match rows with
  | [a] => some a
  | _ => none

/-- Message of the PostgREST error raised by `.single()` when the query did not
return exactly one row; handlers that check only `error` forward it with 400. -/
def singleRowErrMsg : String := "JSON object requested, multiple (or no) rows returned"

/-- Row of the `profiles` table, with the columns `src/index.ts` reads and
writes.  `admin_id` is the external id, `unique_code` the public code. -/
structure ProfileRecord where
  admin_id : String
  pin : String
  unique_code : String
  profile_photo_url : String
  full_name : String
  email : String
  status : String
  job_title : String
  company_name : String
  mobile_primary : String
  landline_number : String
  address : String
  facebook_link : String
  instagram_link : String
  tiktok_link : String
  whatsapp_number : String
  website_link : String
  created_at : Nat
  updated_at : Nat
deriving DecidableEq

/-- The `profiles` table. -/
abbrev Store := List ProfileRecord

/-- Schema invariant of the `profiles` table: `unique_code` and `admin_id` are
unique across rows (both columns are unique keys per the migration scripts and
the spec's data-model invariant). -/
def Store.wf (store : Store) : Prop :=
  List.Pairwise (fun a b => a.unique_code ≠ b.unique_code ∧ a.admin_id ≠ b.admin_id) store

instance (store : Store) : Decidable (Store.wf store) := by
  unfold Store.wf; infer_instance

/-- Row of the `admins` table (`id, email, password_hash, role`); `email` is a
unique column. -/
structure AdminAccount where
  id : String
  email : String
  password_hash : String
  role : String
deriving DecidableEq

/-- Modelled from the spec: the bcryptjs Password Verifier collaborator
("compares a plaintext secret against a stored salted hash").  The hash is an
injective function of the password; `AdminAccount.password_hash = bcryptHash p`
says the account's stored hash matches password `p`. -/
def bcryptHash (password : String) : String :=
  "bcrypt$" ++ password

/-- Modelled from the spec: `bcrypt.compare` succeeds exactly when the
plaintext hashes to the stored hash. -/
def bcryptCompare (password hash : String) : Bool :=
  bcryptHash password == hash

/-- Claim set of a session token: `{sub, email, role, exp}` as signed by
`jwt.sign` in the admin-login handler. -/
structure JwtClaims where
  sub : String
  email : String
  role : String
  exp : Nat
deriving DecidableEq

/-- Auxiliary string hash used to model the HMAC of the Token Service. -/
def strHash (s : String) : Nat :=
  s.foldl (fun h c => h * 131 + c.toNat + 1) 7

/-- Modelled from the spec: the Token Service's signature over a claim set,
keyed by the shared secret ("signed compact claim set, HMAC or equivalent"). -/
def macSign (secret : String) (c : JwtClaims) : Nat :=
  strHash (secret ++ "." ++ c.sub ++ "." ++ c.email ++ "." ++ c.role ++ "." ++ toString c.exp)

/-- A signed token: the claims it carries plus its signature. -/
structure JwtToken where
  claims : JwtClaims
  sig : Nat
deriving DecidableEq

/-- Modelled from the spec: `jwt.sign(claims, secret)` attaches the keyed
signature over the claims. -/
def jwtSign (secret : String) (c : JwtClaims) : JwtToken :=
  ⟨c, macSign secret c⟩

/-- Modelled from the spec: `jwt.verify(token, secret)` checks the signature
against the shared secret and rejects expired tokens (expired when the current
time has reached `exp`); on success it returns the decoded claims. -/
def jwtVerify (secret : String) (now : Nat) (t : JwtToken) : Option JwtClaims :=
  if t.sig == macSign secret t.claims && decide (now < t.claims.exp) then
    some t.claims
  else
    none

/-- Embedding of `requireAdmin` (src/index.ts:31).  The `Authorization` header
is modelled as an optional (scheme, token) pair: absent header, or a scheme
other than `Bearer`, fails the `startsWith('Bearer ')` check; otherwise the
token goes to `jwt.verify` and on success the decoded claims are attached to
the request. -/
def requireAdmin (secret : String) (now : Nat) (authHeader : Option (String × JwtToken)) :
    HttpResult JwtClaims :=
  match authHeader with
  | none => .err ⟨401, "Missing or invalid Authorization header"⟩
  | some (scheme, t) =>
    if scheme != "Bearer" then
      .err ⟨401, "Missing or invalid Authorization header"⟩
    else
      match jwtVerify secret now t with
      | none => .err ⟨401, "Invalid token"⟩
      | some c => .ok c

/-- Token lifetime: `expiresIn: '8h'`, in seconds. -/
def eightHours : Nat := 8 * 60 * 60

/-- Embedding of `POST /api/admin/login` (src/index.ts:109).  Absent fields of
the JSON body are the empty string (JS falsiness of `!email || !password`
also treats `""` as missing).  The lookup `eq('email', email).single()`
is a filter of the `admins` table followed by `single`; `error || !admin`
and a failed `bcrypt.compare` both yield the same generic 401.  On success the
handler signs `{sub: admin.id, email: admin.email, role: admin.role || 'admin'}`
with an 8-hour expiry and returns the token. -/
def adminLogin (admins : List AdminAccount) (secret : String) (email password : String)
    (now : Nat) : HttpResult JwtToken :=
  if email == "" || password == "" then
    .err ⟨400, "Email and password are required"⟩
  else
    match single (admins.filter (fun a => a.email == email)) with
    | none => .err ⟨401, "Invalid credentials"⟩
    | some admin =>
      if bcryptCompare password admin.password_hash then
        .ok (jwtSign secret
          ⟨admin.id, admin.email, (if admin.role == "" then "admin" else admin.role),
           now + eightHours⟩)
      else
        .err ⟨401, "Invalid credentials"⟩

/-- Frontend-shaped profile body, the field mapping at src/index.ts:155. -/
structure ProfileView where
  id : String
  pin : String
  uniqueCode : String
  profilePhoto : String
  fullName : String
  email : String
  status : String
  jobTitle : String
  companyName : String
  mobilePrimary : String
  landlineNumber : String
  address : String
  facebookLink : String
  instagramLink : String
  tiktokLink : String
  whatsappNumber : String
  websiteLink : String
  createdAt : Nat
  updatedAt : Nat
deriving DecidableEq

/-- Database row to frontend shape: the column renaming done by every handler
that returns a profile (`id: data.admin_id`, `pin: data.pin`, ...). -/
def toView (d : ProfileRecord) : ProfileView :=
  { id := d.admin_id
    pin := d.pin
    uniqueCode := d.unique_code
    profilePhoto := d.profile_photo_url
    fullName := d.full_name
    email := d.email
    status := d.status
    jobTitle := d.job_title
    companyName := d.company_name
    mobilePrimary := d.mobile_primary
    landlineNumber := d.landline_number
    address := d.address
    facebookLink := d.facebook_link
    instagramLink := d.instagram_link
    tiktokLink := d.tiktok_link
    whatsappNumber := d.whatsapp_number
    websiteLink := d.website_link
    createdAt := d.created_at
    updatedAt := d.updated_at }

/-- Embedding of `GET /api/profiles/:uniqueCode` (src/index.ts:140): public,
unauthenticated; fetches the row by `unique_code` and returns the full mapped
row — including the `pin` column. -/
def getProfile (store : Store) (uniqueCode : String) : HttpResult ProfileView :=
  match single ((store : List ProfileRecord).filter (fun r => r.unique_code == uniqueCode)) with
  | none => .err ⟨404, "Profile not found"⟩
  | some d => .ok (toView d)

/-- JSON body of the owner-update request.  A `none` field is an absent (JS
`undefined`) key: `JSON.stringify` of the Supabase update body drops it, so
the corresponding column is left untouched. -/
structure UpdateBody where
  profilePhoto : Option String := none
  fullName : Option String := none
  email : Option String := none
  status : Option String := none
  jobTitle : Option String := none
  companyName : Option String := none
  mobilePrimary : Option String := none
  landlineNumber : Option String := none
  address : Option String := none
  facebookLink : Option String := none
  instagramLink : Option String := none
  tiktokLink : Option String := none
  whatsappNumber : Option String := none
  websiteLink : Option String := none
  pin : Option String := none
deriving DecidableEq

/-- The `/^\d{5}$/` test guarding the optional PIN update at src/index.ts:313:
exactly five characters, all digits. -/
def isFiveDigitPin (s : String) : Bool :=
  s.length == 5 && s.toList.all (fun c => c.isDigit)

/-- Effect of the owner-update `dbUpdateData` on one row: each provided field
overwrites its column, `updated_at` is stamped, and `pin` is applied only when
it is a string of exactly five digits. -/
def applyOwnerUpdate (u : UpdateBody) (now : Nat) (r : ProfileRecord) : ProfileRecord :=
  { r with
    profile_photo_url := u.profilePhoto.getD r.profile_photo_url
    full_name := u.fullName.getD r.full_name
    email := u.email.getD r.email
    status := u.status.getD r.status
    job_title := u.jobTitle.getD r.job_title
    company_name := u.companyName.getD r.company_name
    mobile_primary := u.mobilePrimary.getD r.mobile_primary
    landline_number := u.landlineNumber.getD r.landline_number
    address := u.address.getD r.address
    facebook_link := u.facebookLink.getD r.facebook_link
    instagram_link := u.instagramLink.getD r.instagram_link
    tiktok_link := u.tiktokLink.getD r.tiktok_link
    whatsapp_number := u.whatsappNumber.getD r.whatsapp_number
    website_link := u.websiteLink.getD r.website_link
    pin := match u.pin with
      | some p => if isFiveDigitPin p then p else r.pin
      | none => r.pin
    updated_at := now }

/-- Supabase `update(...).eq('unique_code', code)`: applies `f` to every row
whose `unique_code` matches. -/
def updateWhere (store : Store) (uniqueCode : String) (f : ProfileRecord → ProfileRecord) :
    Store :=
  (store : List ProfileRecord).map (fun r => if r.unique_code == uniqueCode then f r else r)

/-- Embedding of `PUT /api/profiles/:uniqueCode` (src/index.ts:288): the
owner-update handler.  It takes no bearer token, PIN, or other credential —
only the public code from the path.  The update is committed by the database
before `.select().single()` picks the updated row (400 on not-exactly-one). -/
def updateProfile (store : Store) (uniqueCode : String) (u : UpdateBody) (now : Nat) :
    HttpResult ProfileView × Store :=
  let store2 := updateWhere store uniqueCode (applyOwnerUpdate u now)
  match single ((store2 : List ProfileRecord).filter (fun r => r.unique_code == uniqueCode)) with
  | none => (.err ⟨400, singleRowErrMsg⟩, store2)
  | some d => (.ok (toView d), store2)

/-- Success payload `{success, message}`. -/
structure SimpleResp where
  success : Bool
  message : String
deriving DecidableEq

/-- Embedding of `PUT /api/profiles/:uniqueCode/pin` (src/index.ts:476).
`currentPin`/`newPin` are optional JSON fields.  The stored row is fetched
first (404 when absent); `profile.pin !== currentPin` is strict string
comparison, so an absent `currentPin` never matches.  The update body is
`{pin: newPin, updated_at: now}` and `JSON.stringify` drops an undefined
`newPin`, leaving the column unchanged in that case; no format check is
applied to a carried `newPin`. -/
def changePin (store : Store) (uniqueCode : String) (currentPin newPin : Option String)
    (now : Nat) : HttpResult SimpleResp × Store :=
  match single ((store : List ProfileRecord).filter (fun r => r.unique_code == uniqueCode)) with
  | none => (.err ⟨404, "Profile not found"⟩, store)
  | some profile =>
    if currentPin != some profile.pin then
      (.err ⟨401, "Current PIN is incorrect"⟩, store)
    else
      let store2 := updateWhere store uniqueCode
        (fun r => { r with pin := newPin.getD r.pin, updated_at := now })
      match single ((store2 : List ProfileRecord).filter (fun r => r.unique_code == uniqueCode)) with
      | none => (.err ⟨400, singleRowErrMsg⟩, store2)
      | some _ => (.ok ⟨true, "PIN updated successfully"⟩, store2)

/-- Success payload of Variant B verification: `{success, message, uniqueCode}`. -/
structure VerifyByIdResp where
  success : Bool
  message : String
  uniqueCode : String
deriving DecidableEq

/-- Embedding of `POST /api/profiles/verify` (src/index.ts:444), Variant B:
lookup by external id alone, then banned check, then PIN comparison.  Absent
`id`/`pin` body fields are the empty string (`!id || !pin`). -/
def verifyById (store : Store) (id pin : String) : HttpResult VerifyByIdResp :=
  if id == "" || pin == "" then
    .err ⟨400, "id and pin are required"⟩
  else
    match single ((store : List ProfileRecord).filter (fun r => r.admin_id == id)) with
    | none => .err ⟨404, "Profile not found"⟩
    | some d =>
      if d.status == "banned" then
        .err ⟨403, "Account is banned"⟩
      else if d.pin != pin then
        .err ⟨401, "Invalid credentials"⟩
      else
        .ok ⟨true, "Credentials verified", d.unique_code⟩

/-- Embedding of `POST /api/profiles/:uniqueCode/verify` (src/index.ts:417),
Variant A: one query filtered by `unique_code`, `admin_id` and `pin` at once;
`.single()` failing (no row matches all three) is the only failure, a 401.
No banned-status check appears in this handler. -/
def verifyScoped (store : Store) (uniqueCode id pin : String) : HttpResult SimpleResp :=
  match single ((store : List ProfileRecord).filter
      (fun r => r.unique_code == uniqueCode && r.admin_id == id && r.pin == pin)) with
  | none => .err ⟨401, "Invalid credentials"⟩
  | some _ => .ok ⟨true, "Credentials verified"⟩

/-- Success payload of the bulk operation: `{success, message, count}`. -/
structure BulkResp where
  success : Bool
  message : String
  count : Nat
deriving DecidableEq

/-- Embedding of `POST /api/admin/profiles/bulk` (src/index.ts:671), after the
admin guard.  An empty `action` (JS `!action`) or an empty code list is a 400;
`ban`/`unban` run one batched `update ... in('unique_code', codes)`,
`delete` one batched delete; rows whose code is not present are simply not
matched.  The response's `count` is the length of the requested list. -/
def bulkOperation (store : Store) (action : String) (uniqueCodes : List String) (now : Nat) :
    HttpResult BulkResp × Store :=
  if action == "" || uniqueCodes.length == 0 then
    (.err ⟨400, "Invalid bulk operation parameters"⟩, store)
  else if action == "ban" then
    (.ok ⟨true, toString uniqueCodes.length ++ " profiles banned successfully",
        uniqueCodes.length⟩,
     (store : List ProfileRecord).map (fun r =>
       if uniqueCodes.contains r.unique_code then
         { r with status := "banned", updated_at := now }
       else r))
  else if action == "unban" then
    (.ok ⟨true, toString uniqueCodes.length ++ " profiles unbanned successfully",
        uniqueCodes.length⟩,
     (store : List ProfileRecord).map (fun r =>
       if uniqueCodes.contains r.unique_code then
         { r with status := "active", updated_at := now }
       else r))
  else if action == "delete" then
    (.ok ⟨true, toString uniqueCodes.length ++ " profiles deleted successfully",
        uniqueCodes.length⟩,
     (store : List ProfileRecord).filter (fun r => !(uniqueCodes.contains r.unique_code)))
  else
    (.err ⟨400, "Invalid action"⟩, store)

/-- An uploaded file as multer sees it: MIME type and byte size. -/
structure UploadFile where
  mimetype : String
  size : Nat
deriving DecidableEq

/-- The multer `fileSize` limit: 5 MB. -/
def maxFileSize : Nat := 5 * 1024 * 1024

/-- JS `String.prototype.startsWith`, on the character lists. -/
def startsWithStr (p s : String) : Bool :=
  List.isPrefixOf p.toList s.toList

/-- Embedding of `POST /api/profiles/:uniqueCode/upload` (src/index.ts:360)
together with the multer configuration (src/index.ts:63) and the error
middleware (src/index.ts:731).  A non-image file makes `fileFilter` pass a
plain `Error` to the middleware, which is not a `MulterError` and falls to the
generic 500; a file over the size limit raises `MulterError LIMIT_FILE_SIZE`,
mapped to 400 by the middleware.  Both reject before the handler body, so the
store is untouched.  Otherwise the handler stores the file under a generated
name and updates `profile_photo_url` and `updated_at` of the matching row. -/
def uploadPhoto (store : Store) (uniqueCode : String) (file : UploadFile)
    (storedName : String) (now : Nat) : HttpResult ProfileView × Store :=
  if !(startsWithStr "image/" file.mimetype) then
    (.err ⟨500, "Internal server error"⟩, store)
  else if maxFileSize < file.size then
    (.err ⟨400, "File too large. Maximum size is 5MB."⟩, store)
  else
    let store2 := updateWhere store uniqueCode (fun r =>
      { r with profile_photo_url := "/uploads/" ++ storedName, updated_at := now })
    match single ((store2 : List ProfileRecord).filter (fun r => r.unique_code == uniqueCode)) with
    | none => (.err ⟨400, singleRowErrMsg⟩, store2)
    | some d => (.ok (toView d), store2)

/-! Helper lemmas about the query embedding. -/

/-- Filtering a key-distinct list by a predicate that pins the key down to a
member's key returns exactly that member. -/
theorem filter_unique_singleton {α : Type} (p : α → Bool) (key : α → String) (l : List α)
    (hp : l.Pairwise (fun a b => key a ≠ key b)) (r : α) (hr : r ∈ l) (hpr : p r = true)
    (hkey : ∀ x, p x = true → key x = key r) :
    l.filter p = [r] := by
  induction l with
  | nil => cases hr
  | cons a t ih =>
    rcases List.pairwise_cons.mp hp with ⟨ha, ht⟩
    rcases List.mem_cons.mp hr with h | h
    · subst h
      have hnone : t.filter p = [] :=
        List.filter_eq_nil_iff.mpr (fun b hb hpb => ha b hb (hkey b hpb).symm)
      simp [List.filter_cons, hpr, hnone]
    · have hpa : p a = false := by
        cases hcase : p a with
        | false => rfl
        | true => exact absurd (hkey a hcase) (ha r h)
      simp [List.filter_cons, hpa, ih ht h]

/-- Filtering after a map is mapping after filtering the composed predicate. -/
theorem filter_map_comm {α β : Type} (f : α → β) (p : β → Bool) (l : List α) :
    (l.map f).filter p = (l.filter (fun x => p (f x))).map f := by
  induction l with
  | nil => rfl
  | cons a t ih =>
    cases h : p (f a) <;> simp [List.filter_cons, h, ih]

theorem single_eq_some {α : Type} {l : List α} {a : α} (h : single l = some a) : l = [a] := by
  match l, h with
  | [x], h => cases h; rfl

theorem Store.wf_code {store : Store} (hwf : Store.wf store) :
    store.Pairwise (fun a b => a.unique_code ≠ b.unique_code) :=
  List.Pairwise.imp (fun h => h.1) hwf

theorem Store.wf_id {store : Store} (hwf : Store.wf store) :
    store.Pairwise (fun a b => a.admin_id ≠ b.admin_id) :=
  List.Pairwise.imp (fun h => h.2) hwf

/-- Under the schema invariant, two stored rows with the same public code are
the same row. -/
theorem eq_of_unique_code_eq {store : Store} (hwf : Store.wf store)
    {r s : ProfileRecord} (hr : r ∈ store) (hs : s ∈ store)
    (h : s.unique_code = r.unique_code) : s = r := by
  have hf := filter_unique_singleton (fun x => x.unique_code == r.unique_code)
    ProfileRecord.unique_code store (Store.wf_code hwf) r hr (by simp)
    (fun x hx => by simpa using hx)
  have hmem : s ∈ store.filter (fun x => x.unique_code == r.unique_code) :=
    List.mem_filter.mpr ⟨hs, by simpa using h⟩
  rw [hf] at hmem
  simpa using hmem

/-- Filtering an `updateWhere` result by the same code picks out the updated
row, provided the update leaves `unique_code` alone. -/
theorem filter_updateWhere {store : Store} (hwf : Store.wf store)
    {r : ProfileRecord} (hr : r ∈ store) (f : ProfileRecord → ProfileRecord)
    (hkeep : ∀ x, (f x).unique_code = x.unique_code) :
    (updateWhere store r.unique_code f).filter (fun x => x.unique_code == r.unique_code)
      = [f r] := by
  have hf := filter_unique_singleton (fun x => x.unique_code == r.unique_code)
    ProfileRecord.unique_code store (Store.wf_code hwf) r hr (by simp)
    (fun x hx => by simpa using hx)
  unfold updateWhere
  rw [filter_map_comm]
  have hpred : (fun x => (if x.unique_code == r.unique_code then f x else x).unique_code
      == r.unique_code) = (fun x => x.unique_code == r.unique_code) := by
    funext x
    cases hx : x.unique_code == r.unique_code with
    | false => simp [hx]
    | true => simp [hx, hkeep]
  rw [hpred, hf]
  simp

/-! Concrete fixtures used by the witness theorems. -/

/-- Profile row with the given external id, pin, public code and status, and
filler contact fields. -/
def mkRecord (id pin code stat : String) : ProfileRecord :=
  { admin_id := id
    pin := pin
    unique_code := code
    profile_photo_url := "/uploads/kontacksharelogo.png"
    full_name := "Default Name"
    email := "default@example.com"
    status := stat
    job_title := "Default Job Title"
    company_name := "Default Company"
    mobile_primary := "000-000-0000"
    landline_number := "000-000-0000"
    address := "Default Address"
    facebook_link := "fb"
    instagram_link := "ig"
    tiktok_link := "tt"
    whatsapp_number := "wa"
    website_link := "web"
    created_at := 0
    updated_at := 0 }

def demoActive : ProfileRecord := mkRecord "u1" "12345" "code1" "active"

def demoBanned : ProfileRecord := mkRecord "u2" "22222" "code2" "banned"

def demoStore : Store := [demoActive, demoBanned]

def demoAdmin : AdminAccount := ⟨"a1", "admin@example.com", bcryptHash "Admin123", "admin"⟩

/-! Claim theorems. -/

/-- Claim C9: the public, unauthenticated `GET /api/profiles/:uniqueCode`
returns a body whose `pin` field equals the stored PIN secret of the record,
so the public code alone suffices to learn the PIN. -/
theorem getProfile_exposes_pin (store : Store) (hwf : Store.wf store)
    (r : ProfileRecord) (hr : r ∈ store) :
    getProfile store r.unique_code = .ok (toView r) ∧ (toView r).pin = r.pin := by
  have hf := filter_unique_singleton (fun x => x.unique_code == r.unique_code)
    ProfileRecord.unique_code store (Store.wf_code hwf) r hr (by simp)
    (fun x hx => by simpa using hx)
  exact ⟨by simp [getProfile, hf, single], rfl⟩

/-- Witness for C9 on a concrete store. -/
theorem getProfile_exposes_pin_witness :
    Store.wf demoStore ∧ demoActive ∈ demoStore ∧
    (getProfile demoStore demoActive.unique_code = .ok (toView demoActive) ∧
      (toView demoActive).pin = demoActive.pin) :=
  ⟨by decide, by decide, getProfile_exposes_pin demoStore (by decide) demoActive (by decide)⟩

/-- Claim C8: the owner-update handler `PUT /api/profiles/:uniqueCode` takes no
bearer token, PIN, or other proof of ownership (none appears in its input);
for every stored record, a request carrying the record's public code succeeds
and rewrites the record's fields as requested. -/
theorem updateProfile_no_credential (store : Store) (hwf : Store.wf store)
    (r : ProfileRecord) (hr : r ∈ store) (u : UpdateBody) (now : Nat) :
    updateProfile store r.unique_code u now =
      (.ok (toView (applyOwnerUpdate u now r)),
       updateWhere store r.unique_code (applyOwnerUpdate u now)) := by
  have hf := filter_updateWhere hwf hr (applyOwnerUpdate u now) (fun x => rfl)
  simp [updateProfile, hf, single]

/-- Witness for C8: a concrete no-credential update that changes the full name
and company of the demo record. -/
theorem updateProfile_no_credential_witness :
    Store.wf demoStore ∧ demoActive ∈ demoStore ∧
    updateProfile demoStore demoActive.unique_code
        { fullName := some "New Name", companyName := some "New Co" } 5 =
      (.ok (toView (applyOwnerUpdate
          { fullName := some "New Name", companyName := some "New Co" } 5 demoActive)),
       updateWhere demoStore demoActive.unique_code
         (applyOwnerUpdate { fullName := some "New Name", companyName := some "New Co" } 5)) :=
  ⟨by decide, by decide,
   updateProfile_no_credential demoStore (by decide) demoActive (by decide)
     { fullName := some "New Name", companyName := some "New Co" } 5⟩

/-- Claim C1: Variant B verification (`POST /api/profiles/verify`): no record
with the external id yields `NotFound` (404); a matching banned record yields
`Forbidden` (403) for every supplied pin, the correct one included, since the
ban check precedes the PIN comparison; an unbanned record with a mismatched
pin yields `Unauthorized` (401); and on success the response carries the
record's public code. -/
theorem verifyById_cases (store : Store) (hwf : Store.wf store) (id pin : String)
    (hid : id ≠ "") (hpin : pin ≠ "") :
    ((∀ r ∈ store, r.admin_id ≠ id) →
        verifyById store id pin = .err ⟨404, "Profile not found"⟩) ∧
    (∀ r ∈ store, r.admin_id = id →
      ((r.status = "banned" → verifyById store id pin = .err ⟨403, "Account is banned"⟩) ∧
       (r.status ≠ "banned" → pin ≠ r.pin →
          verifyById store id pin = .err ⟨401, "Invalid credentials"⟩) ∧
       (r.status ≠ "banned" → pin = r.pin →
          verifyById store id pin = .ok ⟨true, "Credentials verified", r.unique_code⟩))) := by
  have hguard : (id == "" || pin == "") = false := by
    simp [hid, hpin]
  constructor
  · intro hnone
    have hf : store.filter (fun x => x.admin_id == id) = [] :=
      List.filter_eq_nil_iff.mpr (fun a ha hp => hnone a ha (by simpa using hp))
    simp [verifyById, hguard, hf, single]
  · intro r hr hrid
    have hf : store.filter (fun x => x.admin_id == id) = [r] :=
      filter_unique_singleton (fun x => x.admin_id == id) ProfileRecord.admin_id store
        (Store.wf_id hwf) r hr (by simp [hrid])
        (fun x hx => by rw [hrid]; simpa using hx)
    refine ⟨?_, ?_, ?_⟩
    · intro hban
      simp [verifyById, hguard, hf, single, hban]
    · intro hban hne
      have hnp : ¬r.pin = pin := fun h => hne h.symm
      simp [verifyById, hguard, hf, single, hban, hnp]
    · intro hban heq
      subst heq
      simp [verifyById, hf, single, hban, hid, hpin]

/-- Witness for C1: the banned demo record with its correct pin is refused
with 403, and the active record verifies and reports its public code. -/
theorem verifyById_cases_witness :
    Store.wf demoStore ∧ ("u2" : String) ≠ "" ∧ ("22222" : String) ≠ "" ∧
    demoBanned ∈ demoStore ∧ demoBanned.admin_id = "u2" ∧ demoBanned.status = "banned" ∧
    verifyById demoStore "u2" "22222" = .err ⟨403, "Account is banned"⟩ ∧
    verifyById demoStore "u1" "12345" = .ok ⟨true, "Credentials verified", "code1"⟩ :=
  ⟨by decide, by decide, by decide, by decide, by decide, by decide,
   (((verifyById_cases demoStore (by decide) "u2" "22222" (by decide) (by decide)).2
      demoBanned (by decide) (by decide)).1 (by decide)),
   by
    have h := (((verifyById_cases demoStore (by decide) "u1" "12345" (by decide) (by decide)).2
      demoActive (by decide) (by decide)).2.2 (by decide) (by decide))
    simpa using h⟩

/-- Claim C4: Variant A verification (`POST /api/profiles/:uniqueCode/verify`):
any mismatch among public code, external id and pin — record not found
included — yields `Unauthorized` (401), and no banned-state check is made: a
banned record with correct code and id but wrong pin still yields 401, and a
banned record with all three matching verifies successfully. -/
theorem verifyScoped_cases (store : Store) (hwf : Store.wf store)
    (uniqueCode id pin : String) :
    ((∀ r ∈ store, ¬(r.unique_code = uniqueCode ∧ r.admin_id = id ∧ r.pin = pin)) →
        verifyScoped store uniqueCode id pin = .err ⟨401, "Invalid credentials"⟩) ∧
    (∀ r ∈ store, r.status = "banned" → r.unique_code = uniqueCode → r.admin_id = id →
        pin ≠ r.pin → verifyScoped store uniqueCode id pin = .err ⟨401, "Invalid credentials"⟩) ∧
    (∀ r ∈ store, r.unique_code = uniqueCode → r.admin_id = id → r.pin = pin →
        verifyScoped store uniqueCode id pin = .ok ⟨true, "Credentials verified"⟩) := by
  have hmismatch :
      (∀ r ∈ store, ¬(r.unique_code = uniqueCode ∧ r.admin_id = id ∧ r.pin = pin)) →
        verifyScoped store uniqueCode id pin = .err ⟨401, "Invalid credentials"⟩ := by
    intro hnone
    have hf : store.filter
        (fun x => x.unique_code == uniqueCode && x.admin_id == id && x.pin == pin) = [] := by
      refine List.filter_eq_nil_iff.mpr (fun a ha hp => hnone a ha ?_)
      simp only [Bool.and_eq_true, beq_iff_eq] at hp
      exact ⟨hp.1.1, hp.1.2, hp.2⟩
    simp [verifyScoped, hf, single]
  refine ⟨hmismatch, ?_, ?_⟩
  · intro r hr hban hcode hid hpin
    refine hmismatch (fun s hs hmatch => ?_)
    have heq : s = r := eq_of_unique_code_eq hwf hr hs (hmatch.1.trans hcode.symm)
    exact hpin (hmatch.2.2 ▸ congrArg ProfileRecord.pin heq.symm ▸ rfl)
  · intro r hr hcode hid hpin
    have hf : store.filter
        (fun x => x.unique_code == uniqueCode && x.admin_id == id && x.pin == pin) = [r] := by
      refine filter_unique_singleton _ ProfileRecord.unique_code store
        (Store.wf_code hwf) r hr (by simp [hcode, hid, hpin]) (fun x hx => ?_)
      simp only [Bool.and_eq_true, beq_iff_eq] at hx
      rw [hx.1.1, hcode]
    simp [verifyScoped, hf, single]

/-- Witness for C4: the banned demo record with wrong pin is refused 401, and
with all three credentials matching it verifies despite being banned. -/
theorem verifyScoped_cases_witness :
    Store.wf demoStore ∧ demoBanned ∈ demoStore ∧ demoBanned.status = "banned" ∧
    demoBanned.unique_code = "code2" ∧ demoBanned.admin_id = "u2" ∧
    ("99999" : String) ≠ demoBanned.pin ∧ demoBanned.pin = "22222" ∧
    verifyScoped demoStore "code2" "u2" "99999" = .err ⟨401, "Invalid credentials"⟩ ∧
    verifyScoped demoStore "code2" "u2" "22222" = .ok ⟨true, "Credentials verified"⟩ :=
  ⟨by decide, by decide, by decide, by decide, by decide, by decide, by decide,
   (verifyScoped_cases demoStore (by decide) "code2" "u2" "99999").2.1
     demoBanned (by decide) (by decide) (by decide) (by decide) (by decide),
   (verifyScoped_cases demoStore (by decide) "code2" "u2" "22222").2.2
     demoBanned (by decide) (by decide) (by decide) (by decide)⟩

/-- Claim C2: for every stored admin account and matching (email, password)
pair, login issues a token the guard accepts while unexpired, and the claim
set the guard attaches decodes to the subject and role the token was issued
with; a token with an altered signature, or one at or past its 8-hour expiry,
is rejected with 401. -/
theorem adminLogin_token_roundtrip
    (admins : List AdminAccount) (secret password : String) (now : Nat)
    (hu : admins.Pairwise (fun a b => a.email ≠ b.email))
    (a : AdminAccount) (ha : a ∈ admins)
    (hpw : a.password_hash = bcryptHash password)
    (hne : a.email ≠ "") (hnp : password ≠ "") :
    ∃ t : JwtToken,
      adminLogin admins secret a.email password now = .ok t ∧
      t.claims.sub = a.id ∧
      t.claims.role = (if a.role == "" then "admin" else a.role) ∧
      t.claims.exp = now + eightHours ∧
      (∀ now2 : Nat, now2 < t.claims.exp →
        requireAdmin secret now2 (some ("Bearer", t)) = .ok t.claims) ∧
      (∀ sig2 : Nat, sig2 ≠ t.sig → ∀ now2 : Nat,
        requireAdmin secret now2 (some ("Bearer", ⟨t.claims, sig2⟩)) =
          .err ⟨401, "Invalid token"⟩) ∧
      (∀ now3 : Nat, t.claims.exp ≤ now3 →
        requireAdmin secret now3 (some ("Bearer", t)) = .err ⟨401, "Invalid token"⟩) := by
  have hf : admins.filter (fun x => x.email == a.email) = [a] :=
    filter_unique_singleton (fun x => x.email == a.email) AdminAccount.email admins hu a ha
      (by simp) (fun x hx => by simpa using hx)
  refine ⟨jwtSign secret
    ⟨a.id, a.email, (if a.role == "" then "admin" else a.role), now + eightHours⟩,
    ?_, rfl, rfl, rfl, ?_, ?_, ?_⟩
  · simp [adminLogin, hne, hnp, hf, single, bcryptCompare, hpw]
  · intro now2 hlt
    have hlt2 : now2 < now + eightHours := by simpa [jwtSign] using hlt
    simp [requireAdmin, jwtVerify, jwtSign, hlt2]
  · intro sig2 hsig now2
    have hsig2 : ¬(sig2 = macSign secret
        ⟨a.id, a.email, (if a.role = "" then "admin" else a.role), now + eightHours⟩) := by
      simpa [jwtSign] using hsig
    simp [requireAdmin, jwtVerify, jwtSign, hsig2]
  · intro now3 hge
    have hge2 : ¬(now3 < now + eightHours) := by
      simpa [jwtSign] using Nat.not_lt.mpr hge
    simp [requireAdmin, jwtVerify, jwtSign, hge2]

/-- Witness for C2 on a one-admin table with a matching password. -/
theorem adminLogin_token_roundtrip_witness :
    ([demoAdmin].Pairwise (fun a b => a.email ≠ b.email)) ∧
    demoAdmin ∈ [demoAdmin] ∧
    demoAdmin.password_hash = bcryptHash "Admin123" ∧
    demoAdmin.email ≠ "" ∧ ("Admin123" : String) ≠ "" ∧
    (∃ t : JwtToken,
      adminLogin [demoAdmin] "top-secret" demoAdmin.email "Admin123" 1000 = .ok t ∧
      t.claims.sub = demoAdmin.id ∧
      t.claims.role = (if demoAdmin.role == "" then "admin" else demoAdmin.role) ∧
      t.claims.exp = 1000 + eightHours ∧
      (∀ now2 : Nat, now2 < t.claims.exp →
        requireAdmin "top-secret" now2 (some ("Bearer", t)) = .ok t.claims) ∧
      (∀ sig2 : Nat, sig2 ≠ t.sig → ∀ now2 : Nat,
        requireAdmin "top-secret" now2 (some ("Bearer", ⟨t.claims, sig2⟩)) =
          .err ⟨401, "Invalid token"⟩) ∧
      (∀ now3 : Nat, t.claims.exp ≤ now3 →
        requireAdmin "top-secret" now3 (some ("Bearer", t)) = .err ⟨401, "Invalid token"⟩)) :=
  ⟨by decide, by decide, rfl, by decide, by decide,
   adminLogin_token_roundtrip [demoAdmin] "top-secret" "Admin123" 1000 (by decide)
     demoAdmin (by decide) rfl (by decide) (by decide)⟩

/-- Claim C3: admin login with a missing email or password is a 400 that holds
identically for every state of the `admins` table (no lookup can influence
it); every non-matching (email, password) pair — unknown email or failed hash
comparison alike — gets the same generic 401 and no token. -/
theorem adminLogin_failure_cases (admins : List AdminAccount) (secret : String) (now : Nat) :
    (∀ password : String,
      adminLogin admins secret "" password now =
        .err ⟨400, "Email and password are required"⟩) ∧
    (∀ email : String,
      adminLogin admins secret email "" now =
        .err ⟨400, "Email and password are required"⟩) ∧
    (∀ email password : String, email ≠ "" → password ≠ "" →
      (∀ a ∈ admins, a.email = email → a.password_hash ≠ bcryptHash password) →
      adminLogin admins secret email password now = .err ⟨401, "Invalid credentials"⟩) := by
  refine ⟨fun password => by simp [adminLogin], fun email => by simp [adminLogin], ?_⟩
  intro email password hne hnp hnomatch
  unfold adminLogin
  rw [if_neg (by simp [hne, hnp])]
  cases hsingle : single (admins.filter (fun a => a.email == email)) with
  | none => rfl
  | some a =>
    have hmem : a ∈ admins.filter (fun x => x.email == email) := by
      rw [single_eq_some hsingle]; exact List.mem_singleton.mpr rfl
    have hmem2 := List.mem_filter.mp hmem
    have hno := hnomatch a hmem2.1 (by simpa using hmem2.2)
    have hcmp : bcryptCompare password a.password_hash = false := by
      simp [bcryptCompare]
      exact fun h => hno h.symm
    simp [hcmp]

/-- Witness for C3: missing fields, an unknown email, and a wrong password on
the demo admin table. -/
theorem adminLogin_failure_cases_witness :
    adminLogin [demoAdmin] "top-secret" "" "pw" 5 =
      .err ⟨400, "Email and password are required"⟩ ∧
    adminLogin [demoAdmin] "top-secret" "admin@example.com" "" 5 =
      .err ⟨400, "Email and password are required"⟩ ∧
    (("nobody@example.com" : String) ≠ "" ∧ ("pw" : String) ≠ "" ∧
      adminLogin [demoAdmin] "top-secret" "nobody@example.com" "pw" 5 =
        .err ⟨401, "Invalid credentials"⟩) ∧
    (("admin@example.com" : String) ≠ "" ∧ ("WrongPw" : String) ≠ "" ∧
      adminLogin [demoAdmin] "top-secret" "admin@example.com" "WrongPw" 5 =
        .err ⟨401, "Invalid credentials"⟩) :=
  ⟨(adminLogin_failure_cases [demoAdmin] "top-secret" 5).1 "pw",
   (adminLogin_failure_cases [demoAdmin] "top-secret" 5).2.1 "admin@example.com",
   ⟨by decide, by decide,
    (adminLogin_failure_cases [demoAdmin] "top-secret" 5).2.2 "nobody@example.com" "pw"
      (by decide) (by decide) (by decide)⟩,
   ⟨by decide, by decide,
    (adminLogin_failure_cases [demoAdmin] "top-secret" 5).2.2 "admin@example.com" "WrongPw"
      (by decide) (by decide) (by decide)⟩⟩

/-- Claim C5: for every non-empty code list, the bulk operation with action
`ban`, `unban`, or `delete` succeeds with `count` equal to the length of the
requested list, whatever the store contains; rows whose code is in the list
get the status change (or are deleted), rows whose code is absent from the
list are untouched, and requested codes matching no row are silently skipped. -/
theorem bulkOperation_requested_count (store : Store) (uniqueCodes : List String)
    (now : Nat) (hne : uniqueCodes ≠ []) :
    bulkOperation store "ban" uniqueCodes now =
      (.ok ⟨true, toString uniqueCodes.length ++ " profiles banned successfully",
          uniqueCodes.length⟩,
       store.map (fun r => if uniqueCodes.contains r.unique_code then
         { r with status := "banned", updated_at := now } else r)) ∧
    bulkOperation store "unban" uniqueCodes now =
      (.ok ⟨true, toString uniqueCodes.length ++ " profiles unbanned successfully",
          uniqueCodes.length⟩,
       store.map (fun r => if uniqueCodes.contains r.unique_code then
         { r with status := "active", updated_at := now } else r)) ∧
    bulkOperation store "delete" uniqueCodes now =
      (.ok ⟨true, toString uniqueCodes.length ++ " profiles deleted successfully",
          uniqueCodes.length⟩,
       store.filter (fun r => !(uniqueCodes.contains r.unique_code))) := by
  have hlen : (uniqueCodes.length == 0) = false := by
    simpa using fun h => hne (List.length_eq_zero.mp h)
  refine ⟨?_, ?_, ?_⟩ <;> simp [bulkOperation, hlen]

/-- Witness for C5: bulk ban of `[code1, code2, codeZ]` where `codeZ` matches
no row still reports count 3 and bans the two matching rows. -/
theorem bulkOperation_requested_count_witness :
    (["code1", "code2", "codeZ"] : List String) ≠ [] ∧
    bulkOperation demoStore "ban" ["code1", "code2", "codeZ"] 7 =
      (.ok ⟨true, toString (["code1", "code2", "codeZ"] : List String).length ++
          " profiles banned successfully", (["code1", "code2", "codeZ"] : List String).length⟩,
       demoStore.map (fun r => if (["code1", "code2", "codeZ"] : List String).contains r.unique_code
         then { r with status := "banned", updated_at := 7 } else r)) :=
  ⟨by decide,
   (bulkOperation_requested_count demoStore ["code1", "code2", "codeZ"] 7 (by decide)).1⟩

/-- Claim C6: PIN change (`PUT /api/profiles/:uniqueCode/pin`): unknown public
code is a 404; a `currentPin` different from the stored pin is a 401 and the
store — the stored pin included — is unchanged; a matching `currentPin` with a
syntactically valid 5-digit new PIN succeeds, the stored pin becomes the new
value, and `updated_at` advances to the request time. -/
theorem changePin_cases (store : Store) (hwf : Store.wf store) (uniqueCode : String) :
    ((∀ r ∈ store, r.unique_code ≠ uniqueCode) →
      ∀ (currentPin newPin : Option String) (now : Nat),
        changePin store uniqueCode currentPin newPin now =
          (.err ⟨404, "Profile not found"⟩, store)) ∧
    (∀ r ∈ store, r.unique_code = uniqueCode →
      ((∀ (currentPin newPin : Option String) (now : Nat), currentPin ≠ some r.pin →
          changePin store uniqueCode currentPin newPin now =
            (.err ⟨401, "Current PIN is incorrect"⟩, store)) ∧
       (∀ (p : String) (now : Nat), isFiveDigitPin p = true → r.updated_at < now →
          changePin store uniqueCode (some r.pin) (some p) now =
            (.ok ⟨true, "PIN updated successfully"⟩,
             updateWhere store uniqueCode (fun x => { x with pin := p, updated_at := now })) ∧
          ({ r with pin := p, updated_at := now } : ProfileRecord).pin = p ∧
          r.updated_at < ({ r with pin := p, updated_at := now } : ProfileRecord).updated_at))) := by
  constructor
  · intro hnone currentPin newPin now
    have hf : store.filter (fun x => x.unique_code == uniqueCode) = [] :=
      List.filter_eq_nil_iff.mpr (fun a ha hp => hnone a ha (by simpa using hp))
    simp [changePin, hf, single]
  · intro r hr hcode
    subst hcode
    have hf : store.filter (fun x => x.unique_code == r.unique_code) = [r] :=
      filter_unique_singleton (fun x => x.unique_code == r.unique_code)
        ProfileRecord.unique_code store (Store.wf_code hwf) r hr (by simp)
        (fun x hx => by simpa using hx)
    constructor
    · intro currentPin newPin now hcur
      simp [changePin, hf, single, hcur]
    · intro p now hvalid hadv
      have hf2 := filter_updateWhere hwf hr
        (fun x => { x with pin := p, updated_at := now }) (fun x => rfl)
      refine ⟨?_, rfl, hadv⟩
      simp [changePin, hf, single, hf2]

/-- Witness for C6: wrong current pin leaves the demo store unchanged with a
401; the correct current pin with new 5-digit pin 54321 succeeds. -/
theorem changePin_cases_witness :
    Store.wf demoStore ∧ demoActive ∈ demoStore ∧ demoActive.unique_code = "code1" ∧
    (some "00000" : Option String) ≠ some demoActive.pin ∧
    changePin demoStore "code1" (some "00000") (some "54321") 9 =
      (.err ⟨401, "Current PIN is incorrect"⟩, demoStore) ∧
    (isFiveDigitPin "54321" = true ∧ demoActive.updated_at < 9 ∧
      (changePin demoStore "code1" (some demoActive.pin) (some "54321") 9 =
        (.ok ⟨true, "PIN updated successfully"⟩,
         updateWhere demoStore "code1" (fun x => { x with pin := "54321", updated_at := 9 })) ∧
       ({ demoActive with pin := "54321", updated_at := 9 } : ProfileRecord).pin = "54321" ∧
       demoActive.updated_at <
         ({ demoActive with pin := "54321", updated_at := 9 } : ProfileRecord).updated_at)) :=
  ⟨by decide, by decide, by decide, by decide,
   ((changePin_cases demoStore (by decide) "code1").2 demoActive (by decide) (by decide)).1
     (some "00000") (some "54321") 9 (by decide),
   ⟨by decide, by decide,
    ((changePin_cases demoStore (by decide) "code1").2 demoActive (by decide) (by decide)).2
      "54321" 9 (by decide) (by decide)⟩⟩

/-- Statement of claim C7's first part as written: an upload over the 5 MB cap
is rejected as an InternalError-class failure (the generic 500 of the spec's
error taxonomy) with no record mutation. -/
def uploadSizeInternalErrorClaim : Prop :=
  ∀ (store : Store) (uniqueCode storedName : String) (file : UploadFile) (now : Nat),
    maxFileSize < file.size →
    ∃ e : Err, uploadPhoto store uniqueCode file storedName now = (.err e, store) ∧
      e.status = 500

/-- Counterexample for C7: a 6 MB image upload is answered by the error
middleware with status 400, not an InternalError-class 500. -/
theorem uploadPhoto_size_counterexample : ¬uploadSizeInternalErrorClaim := by
  intro h
  obtain ⟨e, he, hs⟩ :=
    h demoStore "code1" "photo.png" ⟨"image/png", 6 * 1024 * 1024⟩ 7 (by decide)
  have h400 : uploadPhoto demoStore "code1" ⟨"image/png", 6 * 1024 * 1024⟩ "photo.png" 7 =
      (.err ⟨400, "File too large. Maximum size is 5MB."⟩, demoStore) := by decide
  rw [h400, Prod.mk.injEq] at he
  obtain ⟨he1, -⟩ := he
  injection he1 with h3
  subst h3
  exact absurd hs (by decide)

/-- Claim C7 (amended): an upload whose file exceeds the 5 MB cap is rejected
by the error middleware as BadRequest (400, the size-limit message) with no
record mutation; a non-image upload is rejected before any database write
(surfacing as the generic 500 fallback), also leaving the store untouched. -/
theorem uploadPhoto_rejections (store : Store) (uniqueCode storedName : String)
    (file : UploadFile) (now : Nat) :
    (startsWithStr "image/" file.mimetype = true → maxFileSize < file.size →
      uploadPhoto store uniqueCode file storedName now =
        (.err ⟨400, "File too large. Maximum size is 5MB."⟩, store)) ∧
    (startsWithStr "image/" file.mimetype = false →
      uploadPhoto store uniqueCode file storedName now =
        (.err ⟨500, "Internal server error"⟩, store)) := by
  constructor
  · intro him hsz
    simp [uploadPhoto, him, hsz]
  · intro him
    simp [uploadPhoto, him]

/-- Witness for the amended C7: a 6 MB image and a small text file against the
demo store. -/
theorem uploadPhoto_rejections_witness :
    (startsWithStr "image/" "image/png" = true ∧
      maxFileSize < 6 * 1024 * 1024 ∧
      uploadPhoto demoStore "code1" ⟨"image/png", 6 * 1024 * 1024⟩ "photo.png" 7 =
        (.err ⟨400, "File too large. Maximum size is 5MB."⟩, demoStore)) ∧
    (startsWithStr "image/" "text/plain" = false ∧
      uploadPhoto demoStore "code1" ⟨"text/plain", 10⟩ "doc.txt" 7 =
        (.err ⟨500, "Internal server error"⟩, demoStore)) :=
  ⟨⟨by decide, by decide,
    (uploadPhoto_rejections demoStore "code1" "photo.png" ⟨"image/png", 6 * 1024 * 1024⟩ 7).1
      (by decide) (by decide)⟩,
   ⟨by decide,
    (uploadPhoto_rejections demoStore "code1" "doc.txt" ⟨"text/plain", 10⟩ 7).2 (by decide)⟩⟩

/-- Statement of claim C10 as written: with a correct `currentPin`, the stored
pin afterwards equals whatever `newPin` value the request carried, including
an absent (`undefined`) one. -/
def changePinSetsCarriedValueClaim : Prop :=
  ∀ (store : Store), Store.wf store → ∀ r ∈ store, ∀ (newPin : Option String) (now : Nat),
    ∃ store2, changePin store r.unique_code (some r.pin) newPin now =
        (.ok ⟨true, "PIN updated successfully"⟩, store2) ∧
      ∀ x ∈ store2, x.unique_code = r.unique_code → some x.pin = newPin

/-- Counterexample for C10: with `newPin` absent, the update body serializes
without a `pin` key, so the stored pin stays `12345` instead of taking the
carried (absent) value. -/
theorem changePin_undefined_counterexample : ¬changePinSetsCarriedValueClaim := by
  intro h
  obtain ⟨store2, heq, hall⟩ := h demoStore (by decide) demoActive (by decide) none 9
  have hcomp : changePin demoStore demoActive.unique_code (some demoActive.pin) none 9 =
      (.ok ⟨true, "PIN updated successfully"⟩,
       [{ demoActive with updated_at := 9 }, demoBanned]) := by decide
  rw [hcomp, Prod.mk.injEq] at heq
  obtain ⟨-, h2⟩ := heq
  have hmem : ({ demoActive with updated_at := 9 } : ProfileRecord) ∈ store2 := by
    rw [← h2]
    exact List.mem_cons_self _ _
  exact absurd (hall _ hmem (by decide)) (by decide)

/-- Claim C10 (amended): the PIN change applies no format validation to a
carried new PIN — any string, non-numeric or empty included, is written as
is — while an absent (`undefined`) `newPin` is dropped from the update body
and the stored pin is left unchanged; the owner-update path, in contrast,
applies a body pin only when it is a string of exactly five digits. -/
theorem changePin_no_format_validation (store : Store) (hwf : Store.wf store)
    (r : ProfileRecord) (hr : r ∈ store) (now : Nat) :
    (∀ p : String, changePin store r.unique_code (some r.pin) (some p) now =
        (.ok ⟨true, "PIN updated successfully"⟩,
         updateWhere store r.unique_code (fun x => { x with pin := p, updated_at := now }))) ∧
    (changePin store r.unique_code (some r.pin) none now =
        (.ok ⟨true, "PIN updated successfully"⟩,
         updateWhere store r.unique_code (fun x => { x with updated_at := now }))) ∧
    (∀ p : String, isFiveDigitPin p = false →
      (applyOwnerUpdate { pin := some p } now r).pin = r.pin) := by
  have hf : store.filter (fun x => x.unique_code == r.unique_code) = [r] :=
    filter_unique_singleton (fun x => x.unique_code == r.unique_code)
      ProfileRecord.unique_code store (Store.wf_code hwf) r hr (by simp)
      (fun x hx => by simpa using hx)
  refine ⟨?_, ?_, ?_⟩
  · intro p
    have hf2 := filter_updateWhere hwf hr
      (fun x => { x with pin := p, updated_at := now }) (fun x => rfl)
    simp [changePin, hf, single, hf2]
  · have hf2 := filter_updateWhere hwf hr
      (fun x => { x with updated_at := now }) (fun x => rfl)
    simp [changePin, hf, single, hf2]
  · intro p hng
    simp [applyOwnerUpdate, hng]

/-- Witness for the amended C10: the non-numeric pin `abc` is stored by the
PIN-change route but refused by the owner-update pin guard. -/
theorem changePin_no_format_validation_witness :
    Store.wf demoStore ∧ demoActive ∈ demoStore ∧
    changePin demoStore demoActive.unique_code (some demoActive.pin) (some "abc") 9 =
      (.ok ⟨true, "PIN updated successfully"⟩,
       updateWhere demoStore demoActive.unique_code
         (fun x => { x with pin := "abc", updated_at := 9 })) ∧
    (isFiveDigitPin "abc" = false ∧
      (applyOwnerUpdate { pin := some "abc" } 9 demoActive).pin = demoActive.pin) :=
  ⟨by decide, by decide,
   (changePin_no_format_validation demoStore (by decide) demoActive (by decide) 9).1 "abc",
   ⟨by decide,
    (changePin_no_format_validation demoStore (by decide) demoActive (by decide) 9).2.2 "abc"
      (by decide)⟩⟩

end TapmoServer
